import Mathlib

/-!
Shallow embedding of the movie-catalog backend's dual-source identity and
ledger layer (models and route handlers from `src/models/Watchlist.js`,
`src/models/Movie.js`, `src/routes/movies.js`, `src/routes/watchlist.js`,
`src/routes/reviews.js`), together with proofs of the specification's
testable properties.

Conventions of the embedding:
- JavaScript strings are Lean `String`s; where a JS string primitive has an
  opaque Lean implementation we re-implement it over `String.data`
  (e.g. `jsStartsWith`, `jsReplaceFirst`) with the primitive's documented
  semantics.
- The PostgreSQL store is a Lean list of row structures; SQL statements are
  functions on those lists, translated clause by clause.  `pg` returns
  `NUMERIC`/`BIGINT` values as JS strings; the models keep the exact
  rational/integer values instead and only stringify where a route does.
- Fallible SQL evaluation (division by zero, PostgreSQL error 22012) is an
  `Except String` result.
-/

/-- The `movie_source` column: `'omdb'` (external provider) or `'custom'`
(local catalog), per the `CHECK (movie_source IN ('omdb','custom'))`
constraints in the schema. -/
inductive MovieSource where
  | omdb : MovieSource
  | custom : MovieSource
deriving DecidableEq, Repr

/-- Textual form of a `MovieSource`, as interpolated into JS template
strings (`${row.movie_source}`). -/
def MovieSource.toText : MovieSource → String
  | .omdb => "omdb"
  | .custom => "custom"

/-- JS `String.prototype.startsWith(pat)` : `pat` is a prefix of `s`. -/
def jsStartsWith (s pat : String) : Bool :=
  pat.data.isPrefixOf s.data

/-- Replace the first (leftmost) occurrence of `pat` in `s` by `rep`,
character-list version.  This is the semantics of JS
`String.prototype.replace` with a string pattern. -/
def replaceFirstAux (pat rep : List Char) : List Char → List Char
  | [] => if pat.isPrefixOf ([] : List Char) then rep else []
  | c :: cs =>
    if pat.isPrefixOf (c :: cs) then rep ++ (c :: cs).drop pat.length
    else c :: replaceFirstAux pat rep cs

/-- JS `s.replace(pat, rep)` with a string pattern: replaces only the first
occurrence. -/
def jsReplaceFirst (s pat rep : String) : String :=
  ⟨replaceFirstAux pat.data rep.data s.data⟩

/-- The local-origin prefix of the identity scheme (`'custom_'` in
`src/routes/movies.js` and `Movie.transformToOMDBFormat`). -/
def localPrefix : String := "custom_"

/-- Encoding of a movie reference into the single string key used by the
API.  From `Movie.transformToOMDBFormat` (`imdbID: custom_${movie.id}`,
so a local raw id is prefixed) and from the fact that external OMDB ids
are used verbatim everywhere. -/
def movieIdEncode : MovieSource → String → String
  | .custom, raw => localPrefix ++ raw
  | .omdb, raw => raw

/-- Decoding of a reference string, from `GET /api/movies/:id` in
`src/routes/movies.js`: `if (id.startsWith('custom_')) { const customId =
id.replace('custom_', ''); ... movieSource = 'custom' } else { /* omdb */ }`. -/
def movieIdDecode (id : String) : MovieSource × String :=
  if jsStartsWith id localPrefix then
    (.custom, jsReplaceFirst id localPrefix "")
  else
    (.omdb, id)

/-- Validity of a raw (origin, rawId) pair per the spec: a local reference
carries the numeric key of a local catalog row; an external identifier
does not begin with the local prefix. -/
def validMovieRef : MovieSource → String → Prop
  | .custom, raw => ∃ n : Nat, raw = toString n
  | .omdb, raw => jsStartsWith raw localPrefix = false

-- Basic facts about the string helpers.

theorem data_append (a b : List Char) :
    ((⟨a⟩ ++ ⟨b⟩ : String)).data = a ++ b := rfl

theorem jsStartsWith_append (pre rest : String) :
    jsStartsWith (pre ++ rest) pre = true := by
  unfold jsStartsWith
  have : (pre ++ rest).data = pre.data ++ rest.data := rfl
  rw [this, List.isPrefixOf_iff_prefix]
  exact List.prefix_append _ _

theorem replaceFirstAux_hit (pat rep s : List Char)
    (h : pat.isPrefixOf s = true) :
    replaceFirstAux pat rep s = rep ++ s.drop pat.length := by
  cases s with
  | nil => simp [replaceFirstAux, h]
  | cons c cs => simp [replaceFirstAux, h]

/-- C1. For every valid movie reference pair, decoding the encoded
reference string returns the original pair:
`decode (encode origin rawId) = (origin, rawId)`. -/
theorem decode_encode_roundtrip (origin : MovieSource) (raw : String)
    (h : validMovieRef origin raw) :
    movieIdDecode (movieIdEncode origin raw) = (origin, raw) := by
  cases origin with
  | custom =>
    unfold movieIdDecode movieIdEncode
    rw [jsStartsWith_append]
    simp only [if_pos rfl]
    unfold jsReplaceFirst
    have hpre : localPrefix.data.isPrefixOf (localPrefix ++ raw).data = true := by
      have : (localPrefix ++ raw).data = localPrefix.data ++ raw.data := rfl
      rw [this, List.isPrefixOf_iff_prefix]
      exact List.prefix_append _ _
    rw [replaceFirstAux_hit _ _ _ hpre]
    have : (localPrefix ++ raw).data = localPrefix.data ++ raw.data := rfl
    rw [this, List.nil_append, List.drop_left]
    rfl
  | omdb =>
    unfold movieIdDecode movieIdEncode
    unfold validMovieRef at h
    rw [h]
    simp

/-- Witness for C1 at concrete inputs: the local reference with numeric key
42 and the external identifier `"tt0133093"` both round-trip. -/
theorem decode_encode_roundtrip_witness :
    movieIdDecode (movieIdEncode .custom "42") = (.custom, "42") ∧
    movieIdDecode (movieIdEncode .omdb "tt0133093") = (.omdb, "tt0133093") :=
  ⟨decode_encode_roundtrip .custom "42" ⟨42, by decide⟩,
   decode_encode_roundtrip .omdb "tt0133093"
     (show jsStartsWith "tt0133093" localPrefix = false by decide)⟩

/-! ## Persisted rows

One structure per table of the schema in `src/database/init.js`
(`reviews`, `watchlists`, `movies`); a table is a Lean list of rows. -/

/-- A row of the `reviews` table. -/
structure ReviewRow where
  id : Nat
  user_id : Nat
  movie_id : String
  movie_source : MovieSource
  title : String
  content : String
  rating : Int
  helpful_count : Int
  total_votes : Int
deriving DecidableEq, Repr

/-- A row of the `watchlists` table.  `movie_data` is the denormalized
JSONB snapshot; it is modelled by its (normalized) textual rendering,
which is what JSONB equality compares. -/
structure WatchlistRow where
  id : Nat
  user_id : Nat
  movie_id : String
  movie_source : MovieSource
  movie_data : String
deriving DecidableEq, Repr

/-- A row of the `movies` table (the local catalog).  `pg` returns the
`DECIMAL(3,1)` column `imdb_rating` to JS as a string, so it is kept as
`Option String` here. -/
structure MovieRow where
  id : Nat
  title : String
  year : Option Int
  runtime : Option String
  director : Option String
  cast_members : List String
  genre : List String
  plot : Option String
  poster : Option String
  imdb_rating : Option String
  language : Option String
  country : Option String
  awards : Option String
  box_office : Option String
deriving DecidableEq, Repr

/-! ## Review ledger (`src/models/Review.js` and `src/routes/reviews.js`) -/

/-- The `WHERE movie_id = $1 AND movie_source = $2` condition of the
review queries. -/
def reviewMatches (movieId : String) (src : MovieSource) (r : ReviewRow) : Bool :=
  r.movie_id == movieId && decide (r.movie_source = src)

/-- JS `Math.round`: round half toward positive infinity. -/
def jsMathRound (q : ℚ) : Int := ⌊q + 1 / 2⌋

/-- JS `Number.prototype.toFixed(1)` on the nonnegative averages produced
here: round to one decimal digit and render `"<int>.<digit>"`. -/
def toFixedOne (q : ℚ) : String :=
  let m : Int := ⌊q * 10 + 1 / 2⌋
  toString (m / 10) ++ "." ++ toString (m % 10)

/-- The stats object built by `Review.getMovieStats`. -/
structure MovieStats where
  totalReviews : Nat
  averageRating : String
  recommendationPercentage : Int
deriving DecidableEq, Repr

/-- `Review.getMovieStats(movieId, movieSource)`, `src/models/Review.js`
lines 220-236.  The SQL projection is
`COUNT(*)`, `AVG(rating::numeric)` and
`COUNT(CASE WHEN rating >= 7 THEN 1 END) * 100.0 / COUNT(*)`.
When no row matches, the last expression divides by zero and PostgreSQL
raises error 22012 (`division by zero`) instead of returning a row, so the
JS null-guards (`|| 0`, `: '0.0'`) on the line below are never reached for
an empty result: the whole call fails. -/
def Review.getMovieStats (db : List ReviewRow) (movieId : String)
    (src : MovieSource) : Except String MovieStats :=
  let rows := db.filter (reviewMatches movieId src)
  if rows.length = 0 then
    Except.error "division by zero"
  else
    let total : Nat := rows.length
    let avg : ℚ := ((rows.map fun r => (r.rating : ℚ)).sum) / total
    let recPct : ℚ := ((rows.countP fun r => decide (7 ≤ r.rating)) * 100 : ℚ) / total
    Except.ok
      { totalReviews := total
        averageRating := toFixedOne avg
        recommendationPercentage := jsMathRound recPct }

/-- `Review.findUserReviewForMovie(userId, movieId, movieSource)`:
`SELECT ... WHERE r.user_id = $1 AND r.movie_id = $2 AND r.movie_source = $3`,
then `rows[0] || null`. -/
def Review.findUserReviewForMovie (db : List ReviewRow) (userId : Nat)
    (movieId : String) (src : MovieSource) : Option ReviewRow :=
  (db.filter fun r =>
    r.user_id == userId && reviewMatches movieId src r).head?

/-- Server-assigned `SERIAL` key for a fresh review row. -/
def freshReviewId (db : List ReviewRow) : Nat :=
  (db.map (·.id)).foldr max 0 + 1

/-- `Review.create`: plain `INSERT ... RETURNING *`. -/
def Review.create (db : List ReviewRow) (userId : Nat) (movieId : String)
    (src : MovieSource) (title content : String) (rating : Int) :
    ReviewRow × List ReviewRow :=
  let row : ReviewRow :=
    { id := freshReviewId db, user_id := userId, movie_id := movieId
      movie_source := src, title := title, content := content
      rating := rating, helpful_count := 0, total_votes := 0 }
  (row, db ++ [row])

/-- `POST /api/reviews` (`src/routes/reviews.js` lines 343-386): pre-check
`findUserReviewForMovie`; on an existing review answer 409 and perform no
insert, otherwise `Review.create` and answer 201.  The result is the HTTP
status paired with the table afterwards. -/
def postReview (db : List ReviewRow) (userId : Nat) (movieId : String)
    (src : MovieSource) (title content : String) (rating : Int) :
    Nat × List ReviewRow :=
  match Review.findUserReviewForMovie db userId movieId src with
  | some _ => (409, db)
  | none => (201, (Review.create db userId movieId src title content rating).2)

/-- Number of reviews stored for one (user, reference) pair. -/
def countUserReviews (db : List ReviewRow) (userId : Nat) (movieId : String)
    (src : MovieSource) : Nat :=
  db.countP fun r => r.user_id == userId && reviewMatches movieId src r

/-- `Review.markHelpful(reviewId, isHelpful)`:
`UPDATE reviews SET helpful_count = helpful_count + CASE WHEN $2 THEN 1 ELSE 0 END,
total_votes = total_votes + 1 WHERE id = $1 RETURNING *`. -/
def Review.markHelpful (db : List ReviewRow) (reviewId : Nat)
    (isHelpful : Bool) : Option ReviewRow × List ReviewRow :=
  let db' := db.map fun r =>
    if r.id == reviewId then
      { r with
        helpful_count := r.helpful_count + (if isHelpful then 1 else 0)
        total_votes := r.total_votes + 1 }
    else r
  ((db'.filter fun r => r.id == reviewId).head?, db')

/-- `Review.update(id, {title, content, rating})`: `COALESCE` keeps the
previous value of every field the caller did not provide; the vote
counters are not touched. -/
def Review.update (db : List ReviewRow) (reviewId : Nat)
    (title? content? : Option String) (rating? : Option Int) :
    List ReviewRow :=
  db.map fun r =>
    if r.id == reviewId then
      { r with
        title := title?.getD r.title
        content := content?.getD r.content
        rating := rating?.getD r.rating }
    else r

/-- `Review.delete(id)`: `DELETE FROM reviews WHERE id = $1`. -/
def Review.delete (db : List ReviewRow) (reviewId : Nat) : List ReviewRow :=
  db.filter fun r => !(r.id == reviewId)

/-- `Review.findById(id)` (modulo the join with `users`, which only adds
the author's display fields and, by the foreign key, never drops the row). -/
def Review.findById (db : List ReviewRow) (reviewId : Nat) : Option ReviewRow :=
  (db.filter fun r => r.id == reviewId).head?

/-- `POST /api/reviews/:id/helpful` (`src/routes/reviews.js` lines
620-663): 404 when the review is missing, 400 when the caller is the
review's author (`existingReview.user_id === req.user.id`) — checked
before `Review.markHelpful` — and otherwise the update runs. -/
def postHelpful (db : List ReviewRow) (reviewId : Nat) (callerId : Nat)
    (helpful : Bool) : Nat × List ReviewRow :=
  match Review.findById db reviewId with
  | none => (404, db)
  | some r =>
    if r.user_id == callerId then (400, db)
    else (200, (Review.markHelpful db reviewId helpful).2)

/-! ## Theorems about the review ledger -/

/-- C2. The spec states that `getMovieStats` on a movie with zero reviews
returns `totalReviews = 0`, `averageRating = "0.0"`,
`recommendationPercentage = 0` without failing — and the JS null-guards in
`src/models/Review.js` lines 232-234 show that this is the intent.  The
SQL it runs divides by `COUNT(*)` with no `NULLIF`, so with zero matching
rows PostgreSQL raises `division by zero` (22012) and the call fails
instead: the code contradicts its own handling of the empty case. -/
theorem getMovieStats_zero_reviews_errors (db : List ReviewRow)
    (movieId : String) (src : MovieSource)
    (h : db.countP (reviewMatches movieId src) = 0) :
    Review.getMovieStats db movieId src = Except.error "division by zero" := by
  unfold Review.getMovieStats
  rw [List.countP_eq_length_filter] at h
  simp [h]

/-- Witness for C2: on an empty review table the stats query for the
external reference `"tt0111161"` fails with the division-by-zero error. -/
theorem getMovieStats_zero_reviews_errors_witness :
    ([] : List ReviewRow).countP (reviewMatches "tt0111161" .omdb) = 0 ∧
    Review.getMovieStats [] "tt0111161" .omdb
      = Except.error "division by zero" :=
  ⟨rfl, getMovieStats_zero_reviews_errors [] "tt0111161" .omdb rfl⟩

/-- C5. When a review by the user for the reference already exists (by the
uniqueness invariant, exactly one), `POST /api/reviews` answers 409, the
table is unchanged (no insert), and exactly one review for the
(user, reference) pair exists afterwards. -/
theorem postReview_conflict (db : List ReviewRow) (userId : Nat)
    (movieId : String) (src : MovieSource) (title content : String)
    (rating : Int)
    (h : countUserReviews db userId movieId src = 1) :
    postReview db userId movieId src title content rating = (409, db) ∧
    countUserReviews
        (postReview db userId movieId src title content rating).2
        userId movieId src = 1 := by
  unfold countUserReviews at h
  rw [List.countP_eq_length_filter] at h
  obtain ⟨x, xs, hx⟩ :
      ∃ x xs, db.filter
        (fun r => r.user_id == userId && reviewMatches movieId src r)
        = x :: xs := by
    cases hf : db.filter
        (fun r => r.user_id == userId && reviewMatches movieId src r) with
    | nil => rw [hf] at h; simp at h
    | cons a as => exact ⟨a, as, rfl⟩
  have hroute :
      postReview db userId movieId src title content rating = (409, db) := by
    unfold postReview Review.findUserReviewForMovie
    rw [hx]
    rfl
  refine ⟨hroute, ?_⟩
  rw [hroute]
  unfold countUserReviews
  rw [List.countP_eq_length_filter, h]

/-- Witness for C5 on a one-row table: the duplicate create is refused with
409 and the table still holds exactly one review for the pair. -/
theorem postReview_conflict_witness :
    countUserReviews
        [{ id := 1, user_id := 7, movie_id := "tt0133093",
           movie_source := .omdb, title := "t", content := "c",
           rating := 8, helpful_count := 0, total_votes := 0 }]
        7 "tt0133093" .omdb = 1 ∧
    postReview
        [{ id := 1, user_id := 7, movie_id := "tt0133093",
           movie_source := .omdb, title := "t", content := "c",
           rating := 8, helpful_count := 0, total_votes := 0 }]
        7 "tt0133093" .omdb "again" "second review" 5
      = (409,
         [{ id := 1, user_id := 7, movie_id := "tt0133093",
            movie_source := .omdb, title := "t", content := "c",
            rating := 8, helpful_count := 0, total_votes := 0 }]) :=
  ⟨rfl,
   (postReview_conflict
      [{ id := 1, user_id := 7, movie_id := "tt0133093",
         movie_source := .omdb, title := "t", content := "c",
         rating := 8, helpful_count := 0, total_votes := 0 }]
      7 "tt0133093" .omdb "again" "second review" 5 (by decide)).1⟩

/-- A sample stored review used by concrete witnesses. -/
def sampleReview : ReviewRow :=
  { id := 3, user_id := 9, movie_id := "custom_4", movie_source := .custom,
    title := "great", content := "really great movie", rating := 9,
    helpful_count := 2, total_votes := 5 }

/-- C7. `markHelpful` bumps the counters of exactly the addressed review:
its `total_votes` rises by exactly 1 and its `helpful_count` by 1 when
`isHelpful` is true and by 0 otherwise, every other row being untouched;
and no operation of the ledger decrements a counter — `update` preserves
both counters of every row, and `delete` only removes rows, every
surviving row being a row of the original table. -/
theorem markHelpful_increments (db : List ReviewRow) (rid : Nat) (b : Bool)
    (i : Nat) (hi : i < db.length) :
    (((Review.markHelpful db rid b).2)[i]? =
      some { db[i] with
             total_votes := db[i].total_votes +
               (if db[i].id = rid then 1 else 0)
             helpful_count := db[i].helpful_count +
               (if db[i].id = rid ∧ b = true then 1 else 0) }) ∧
    (∀ title? content? : Option String, ∀ rating? : Option Int,
      ((Review.update db rid title? content? rating?)[i]?).map
          (fun r => (r.helpful_count, r.total_votes))
        = some (db[i].helpful_count, db[i].total_votes)) ∧
    (∀ r ∈ Review.delete db rid, r ∈ db) := by
  refine ⟨?_, ?_, ?_⟩
  · unfold Review.markHelpful
    simp only [List.getElem?_map, List.getElem?_eq_getElem hi, Option.map_some]
    by_cases hid : db[i].id = rid
    · cases b with
      | true => simp [hid]
      | false => simp [hid]
    · have hbeq : (db[i].id == rid) = false := by simpa using hid
      simp [hbeq, hid]
  · intro t? c? g?
    unfold Review.update
    simp only [List.getElem?_map, List.getElem?_eq_getElem hi, Option.map_some]
    by_cases hid : db[i].id = rid <;> simp [hid]
  · intro r hr
    exact (List.mem_filter.mp hr).1

/-- Witness for C7 at a concrete table: marking `sampleReview` (id 3)
helpful bumps its counters to 3 and 6. -/
theorem markHelpful_increments_witness :
    ((Review.markHelpful [sampleReview] 3 true).2)[0]? =
      some { sampleReview with
             total_votes := sampleReview.total_votes +
               (if sampleReview.id = 3 then 1 else 0)
             helpful_count := sampleReview.helpful_count +
               (if sampleReview.id = 3 ∧ true = true then 1 else 0) } :=
  (markHelpful_increments [sampleReview] 3 true 0 (by decide)).1

/-- C8. A self-vote — the author marking their own review helpful — is
rejected by `POST /api/reviews/:id/helpful` (status 400) before
`markHelpful` runs, so the table, and with it both counters of the
review, is exactly what it was before the call. -/
theorem postHelpful_self_vote_rejected (db : List ReviewRow) (rid : Nat)
    (callerId : Nat) (b : Bool) (r : ReviewRow)
    (hr : Review.findById db rid = some r)
    (hself : r.user_id = callerId) :
    postHelpful db rid callerId b = (400, db) ∧
    (postHelpful db rid callerId b).2 = db := by
  have : postHelpful db rid callerId b = (400, db) := by
    unfold postHelpful
    rw [hr]
    simp [hself]
  exact ⟨this, by rw [this]⟩

/-- Witness for C8: user 9 voting on their own review `sampleReview`
is answered 400 with the table unchanged. -/
theorem postHelpful_self_vote_rejected_witness :
    postHelpful [sampleReview] 3 9 true = (400, [sampleReview]) :=
  (postHelpful_self_vote_rejected [sampleReview] 3 9 true sampleReview
    (by decide) rfl).1

/-! ## Watchlist ledger (`src/models/Watchlist.js` and
`src/routes/watchlist.js`) -/

/-- The `WHERE user_id = $1 AND movie_id = $2 AND movie_source = $3`
condition of the watchlist queries. -/
def watchMatches (userId : Nat) (movieId : String) (src : MovieSource)
    (w : WatchlistRow) : Bool :=
  w.user_id == userId && w.movie_id == movieId && decide (w.movie_source = src)

/-- `Watchlist.isInWatchlist`: `SELECT id ... WHERE` then
`rows.length > 0`. -/
def Watchlist.isInWatchlist (db : List WatchlistRow) (userId : Nat)
    (movieId : String) (src : MovieSource) : Bool :=
  decide (0 < (db.filter (watchMatches userId movieId src)).length)

/-- Server-assigned `SERIAL` key for a fresh watchlist row. -/
def freshWatchlistId (db : List WatchlistRow) : Nat :=
  (db.map (·.id)).foldr max 0 + 1

/-- `Watchlist.add`: `INSERT ... ON CONFLICT (user_id, movie_id,
movie_source) DO NOTHING RETURNING *`, then `rows[0]` — so on a
conflicting (user, reference) pair nothing is inserted and the returned
row is the null/already-exists signal (`none`). -/
def Watchlist.add (db : List WatchlistRow) (userId : Nat) (movieId : String)
    (src : MovieSource) (movieData : String) :
    Option WatchlistRow × List WatchlistRow :=
  if db.any (watchMatches userId movieId src) then (none, db)
  else
    let row : WatchlistRow :=
      { id := freshWatchlistId db, user_id := userId, movie_id := movieId
        movie_source := src, movie_data := movieData }
    (some row, db ++ [row])

/-- `POST /api/watchlist` (`src/routes/watchlist.js` lines 30-76):
pre-check `isInWatchlist` (409 when present), then `Watchlist.add`; a
falsy add result is also answered 409, a fresh row 201. -/
def postWatchlist (db : List WatchlistRow) (userId : Nat) (movieId : String)
    (src : MovieSource) (movieData : String) : Nat × List WatchlistRow :=
  if Watchlist.isInWatchlist db userId movieId src then (409, db)
  else
    match Watchlist.add db userId movieId src movieData with
    | (none, db') => (409, db')
    | (some _, db') => (201, db')

/-- Number of watchlist rows stored for one (user, reference) pair. -/
def countWatch (db : List WatchlistRow) (userId : Nat) (movieId : String)
    (src : MovieSource) : Nat :=
  db.countP (watchMatches userId movieId src)

/-- C6. Adding a movie already on the user's watchlist is an idempotent
no-op: `Watchlist.add` returns the null signal and leaves the table
unchanged rather than raising, the route surfaces the pre-checked
conflict as 409, and exactly one entry for the (user, reference) pair
exists afterwards. -/
theorem watchlist_add_idempotent (db : List WatchlistRow) (userId : Nat)
    (movieId : String) (src : MovieSource) (movieData : String)
    (h : countWatch db userId movieId src = 1) :
    Watchlist.add db userId movieId src movieData = (none, db) ∧
    postWatchlist db userId movieId src movieData = (409, db) ∧
    countWatch (postWatchlist db userId movieId src movieData).2
      userId movieId src = 1 := by
  unfold countWatch at h
  rw [List.countP_eq_length_filter] at h
  have hin : Watchlist.isInWatchlist db userId movieId src = true := by
    unfold Watchlist.isInWatchlist
    rw [h]
    decide
  have hany : db.any (watchMatches userId movieId src) = true := by
    rw [List.any_eq_true]
    obtain ⟨x, xs, hx⟩ :
        ∃ x xs, db.filter (watchMatches userId movieId src) = x :: xs := by
      cases hf : db.filter (watchMatches userId movieId src) with
      | nil => rw [hf] at h; simp at h
      | cons a as => exact ⟨a, as, rfl⟩
    have hxmem : x ∈ db.filter (watchMatches userId movieId src) := by
      rw [hx]; exact List.mem_cons_self x xs
    exact ⟨x, (List.mem_filter.mp hxmem).1, (List.mem_filter.mp hxmem).2⟩
  have hadd : Watchlist.add db userId movieId src movieData = (none, db) := by
    unfold Watchlist.add
    rw [hany]
    rfl
  have hroute : postWatchlist db userId movieId src movieData = (409, db) := by
    unfold postWatchlist
    rw [hin]
    rfl
  refine ⟨hadd, hroute, ?_⟩
  rw [hroute]
  unfold countWatch
  rw [List.countP_eq_length_filter, h]

/-- A sample stored watchlist entry used by concrete witnesses. -/
def sampleEntry : WatchlistRow :=
  { id := 11, user_id := 7, movie_id := "tt1160419", movie_source := .omdb,
    movie_data := "\x7btitle: Dune\x7d" }

/-- Witness for C6 on a one-row table: re-adding `sampleEntry`'s movie is
refused with 409, the add signals null, and the single entry remains. -/
theorem watchlist_add_idempotent_witness :
    countWatch [sampleEntry] 7 "tt1160419" .omdb = 1 ∧
    Watchlist.add [sampleEntry] 7 "tt1160419" .omdb "snapshot"
      = (none, [sampleEntry]) ∧
    postWatchlist [sampleEntry] 7 "tt1160419" .omdb "snapshot"
      = (409, [sampleEntry]) :=
  ⟨by decide,
   (watchlist_add_idempotent [sampleEntry] 7 "tt1160419" .omdb "snapshot"
      (by decide)).1,
   (watchlist_add_idempotent [sampleEntry] 7 "tt1160419" .omdb "snapshot"
      (by decide)).2.1⟩

/-- JS `movie.movieSource || 'omdb'`: an absent source defaults to the
external origin. -/
def defaultSource (src? : Option MovieSource) : MovieSource :=
  src?.getD .omdb

/-- The lookup key `${movie_id}_${movie_source}` built by
`Watchlist.checkMultipleInWatchlist`. -/
def watchKey (movieId : String) (src : MovieSource) : String :=
  movieId ++ "_" ++ src.toText

/-- `Watchlist.checkMultipleInWatchlist(userId, movieList)`
(`src/models/Watchlist.js` lines 113-139): empty input short-circuits to
the empty object; otherwise one query selects the user's rows matching
any queried (movieId, defaulted movieSource) pair, and the returned
lookup object holds the key `${movie_id}_${movie_source}` of every such
row.  The lookup object is modelled by its list of keys; a reference is
reported as a member exactly when its key is in the list. -/
def Watchlist.checkMultipleInWatchlist (db : List WatchlistRow)
    (userId : Nat) (movieList : List (String × Option MovieSource)) :
    List String :=
  if movieList.isEmpty then []
  else
    (db.filter fun w =>
      w.user_id == userId &&
      (movieList.any fun q =>
        w.movie_id == q.1 && decide (w.movie_source = defaultSource q.2))
    ).map fun w => watchKey w.movie_id w.movie_source

theorem watchKey_data (m : String) (s : MovieSource) :
    (watchKey m s).data = m.data ++ ('_' :: s.toText.data) := by
  unfold watchKey
  rw [String.data_append, String.data_append, List.append_assoc]
  rfl

/-- The lookup key determines the (movieId, movieSource) pair: the two
possible `_omdb` / `_custom` suffixes end in distinct characters, so keys
of distinct references never collide even when a movie id itself contains
an underscore. -/
theorem watchKey_inj (a b : String) (s t : MovieSource)
    (h : watchKey a s = watchKey b t) : a = b ∧ s = t := by
  have hd : a.data ++ ('_' :: s.toText.data)
      = b.data ++ ('_' :: t.toText.data) := by
    rw [← watchKey_data, ← watchKey_data, h]
  cases s <;> cases t
  · have := List.append_inj' hd rfl
    exact ⟨String.ext this.1, rfl⟩
  · exfalso
    have h2 := congrArg List.reverse hd
    rw [List.reverse_append, List.reverse_append] at h2
    have e1 : ('_' :: (MovieSource.omdb).toText.data).reverse
        = 'b' :: "dmo_".data := by decide
    have e2 : ('_' :: (MovieSource.custom).toText.data).reverse
        = 'm' :: "otsuc_".data := by decide
    rw [e1, e2] at h2
    have := List.head_eq_of_cons_eq h2
    simp at this
  · exfalso
    have h2 := congrArg List.reverse hd
    rw [List.reverse_append, List.reverse_append] at h2
    have e1 : ('_' :: (MovieSource.omdb).toText.data).reverse
        = 'b' :: "dmo_".data := by decide
    have e2 : ('_' :: (MovieSource.custom).toText.data).reverse
        = 'm' :: "otsuc_".data := by decide
    rw [e1, e2] at h2
    have := List.head_eq_of_cons_eq h2
    simp at this
  · have := List.append_inj' hd rfl
    exact ⟨String.ext this.1, rfl⟩

/-- C9. For every queried reference, the lookup returned by
`checkMultipleInWatchlist` reports membership exactly when a watchlist
entry of that user for that reference exists; in particular no queried
reference without an entry is reported as a member. -/
theorem checkMultiple_reports_membership (db : List WatchlistRow)
    (userId : Nat) (movieList : List (String × Option MovieSource))
    (q : String × Option MovieSource) (hq : q ∈ movieList) :
    watchKey q.1 (defaultSource q.2)
        ∈ Watchlist.checkMultipleInWatchlist db userId movieList
      ↔ ∃ w ∈ db, w.user_id = userId ∧ w.movie_id = q.1 ∧
          w.movie_source = defaultSource q.2 := by
  have hne : movieList.isEmpty = false := by
    cases movieList with
    | nil => cases hq
    | cons x xs => rfl
  unfold Watchlist.checkMultipleInWatchlist
  rw [hne]
  simp only [Bool.false_eq_true, if_false, List.mem_map, List.mem_filter]
  constructor
  · rintro ⟨w, ⟨hwdb, hwcond⟩, hwkey⟩
    obtain ⟨hida, hsrc⟩ := watchKey_inj _ _ _ _ hwkey
    refine ⟨w, hwdb, ?_, hida, hsrc⟩
    have := (Bool.and_eq_true _ _).mp hwcond
    simpa using this.1
  · rintro ⟨w, hwdb, hwuser, hwid, hwsrc⟩
    refine ⟨w, ⟨hwdb, ?_⟩, by rw [hwid, hwsrc]⟩
    rw [Bool.and_eq_true]
    refine ⟨by simpa using hwuser, ?_⟩
    rw [List.any_eq_true]
    exact ⟨q, hq, by rw [Bool.and_eq_true]; exact ⟨by simpa using hwid, by simpa using hwsrc⟩⟩

/-- Witness for C9 on a mixed query list: the entry present in the table
is reported, and the missing one is not. -/
theorem checkMultiple_reports_membership_witness :
    (watchKey "tt1160419" (defaultSource none)
        ∈ Watchlist.checkMultipleInWatchlist [sampleEntry] 7
            [("tt1160419", none), ("tt9999999", some .custom)]) ∧
    ¬ (watchKey "tt9999999" (defaultSource (some .custom))
        ∈ Watchlist.checkMultipleInWatchlist [sampleEntry] 7
            [("tt1160419", none), ("tt9999999", some .custom)]) := by
  constructor
  · exact (checkMultiple_reports_membership [sampleEntry] 7
      [("tt1160419", none), ("tt9999999", some .custom)]
      ("tt1160419", none) (by decide)).mpr
      ⟨sampleEntry, by decide, by decide, by decide, by decide⟩
  · intro hmem
    obtain ⟨w, hwdb, -, -, hwsrc⟩ :=
      (checkMultiple_reports_membership [sampleEntry] 7
        [("tt1160419", none), ("tt9999999", some .custom)]
        ("tt9999999", some .custom) (by decide)).mp hmem
    have : w = sampleEntry := by
      cases hwdb with
      | head => rfl
      | tail _ h => cases h
    rw [this] at hwsrc
    exact absurd hwsrc (by decide)

/-! ## Popular movies (`Watchlist.getPopularMovies`) -/

/-- The `GROUP BY movie_id, movie_source, movie_data` key: the SQL groups
on the denormalized snapshot as well as on the reference. -/
def wTriple (w : WatchlistRow) : String × MovieSource × String :=
  (w.movie_id, w.movie_source, w.movie_data)

/-- Distinct values in order of first occurrence, keyed by `k`: an element
is kept exactly when its key has not occurred earlier. -/
def dedupFirstAux {α κ : Type} [DecidableEq κ] (k : α → κ) (seen : List κ) :
    List α → List α
  | [] => []
  | x :: xs =>
    if k x ∈ seen then dedupFirstAux k seen xs
    else x :: dedupFirstAux k (seen ++ [k x]) xs

/-- Deduplication keeping only the first occurrence of each key. -/
def dedupByFirstOcc {α κ : Type} [DecidableEq κ] (k : α → κ)
    (l : List α) : List α :=
  dedupFirstAux k [] l

/-- Insertion into a count-descending list (`ORDER BY watchlist_count
DESC`; SQL fixes no order among equal counts, and this realization keeps
earlier groups first). -/
def insertByCountDesc {β : Type} (x : β × Nat) :
    List (β × Nat) → List (β × Nat)
  | [] => [x]
  | y :: ys => if y.2 ≤ x.2 then x :: y :: ys else y :: insertByCountDesc x ys

/-- Sort a list of (group, count) pairs by count, descending. -/
def sortByCountDesc {β : Type} : List (β × Nat) → List (β × Nat)
  | [] => []
  | x :: xs => insertByCountDesc x (sortByCountDesc xs)

/-- `Watchlist.getPopularMovies(limit)` (`src/models/Watchlist.js` lines
81-95): `SELECT movie_id, movie_source, movie_data, COUNT(*) ... GROUP BY
movie_id, movie_source, movie_data ORDER BY watchlist_count DESC LIMIT $1`.
One row per distinct grouping triple with the number of its rows, ordered
by count descending (ties in an order SQL leaves unspecified; this model
fixes one), capped to `limit`. -/
def Watchlist.getPopularMovies (db : List WatchlistRow) (limit : Nat) :
    List ((String × MovieSource × String) × Nat) :=
  let triples := dedupByFirstOcc (fun t => t) (db.map wTriple)
  (sortByCountDesc
    (triples.map fun t => (t, db.countP fun w => decide (wTriple w = t)))
  ).take limit

theorem mem_insertByCountDesc {β : Type} (x a : β × Nat)
    (l : List (β × Nat)) (h : a ∈ insertByCountDesc x l) :
    a = x ∨ a ∈ l := by
  induction l with
  | nil => simpa [insertByCountDesc] using h
  | cons y ys ih =>
    unfold insertByCountDesc at h
    by_cases hc : y.2 ≤ x.2
    · rw [if_pos hc] at h
      simpa using h
    · rw [if_neg hc] at h
      rcases List.mem_cons.mp h with h1 | h2
      · exact Or.inr (h1 ▸ List.mem_cons_self y ys)
      · rcases ih h2 with h3 | h4
        · exact Or.inl h3
        · exact Or.inr (List.mem_cons_of_mem y h4)

theorem pairwise_insertByCountDesc {β : Type} (x : β × Nat)
    (l : List (β × Nat))
    (h : l.Pairwise (fun a b => b.2 ≤ a.2)) :
    (insertByCountDesc x l).Pairwise (fun a b => b.2 ≤ a.2) := by
  induction l with
  | nil => simp [insertByCountDesc]
  | cons y ys ih =>
    rw [List.pairwise_cons] at h
    unfold insertByCountDesc
    by_cases hc : y.2 ≤ x.2
    · rw [if_pos hc]
      rw [List.pairwise_cons]
      constructor
      · intro z hz
        rcases List.mem_cons.mp hz with h1 | h2
        · exact h1 ▸ hc
        · exact le_trans (h.1 z h2) hc
      · rw [List.pairwise_cons]
        exact h
    · rw [if_neg hc]
      rw [List.pairwise_cons]
      constructor
      · intro z hz
        rcases mem_insertByCountDesc x z ys hz with h1 | h2
        · exact h1 ▸ le_of_lt (lt_of_not_le hc)
        · exact h.1 z h2
      · exact ih h.2

theorem pairwise_sortByCountDesc {β : Type} (l : List (β × Nat)) :
    (sortByCountDesc l).Pairwise (fun a b => b.2 ≤ a.2) := by
  induction l with
  | nil => simp [sortByCountDesc]
  | cons x xs ih => exact pairwise_insertByCountDesc x _ ih

theorem mem_sortByCountDesc {β : Type} (a : β × Nat)
    (l : List (β × Nat)) (h : a ∈ sortByCountDesc l) : a ∈ l := by
  induction l with
  | nil => simp [sortByCountDesc] at h
  | cons x xs ih =>
    unfold sortByCountDesc at h
    rcases mem_insertByCountDesc x a _ h with h1 | h2
    · exact h1 ▸ List.mem_cons_self x xs
    · exact List.mem_cons_of_mem x (ih h2)

/-- The two-users, one-reference, two-snapshots table of the C10 witness
instance. -/
def twoSnapshotDb : List WatchlistRow :=
  [{ id := 1, user_id := 1, movie_id := "tt1160419", movie_source := .omdb,
     movie_data := "snapA" },
   { id := 2, user_id := 2, movie_id := "tt1160419", movie_source := .omdb,
     movie_data := "snapB" }]

/-- C10. `getPopularMovies` returns at most `limit` groups, ordered by
count descending, where each returned group's count is the number of
watchlist entries whose (movie identifier, origin, stored snapshot)
triple equals the group's key; consequently — as the concrete instance
shows — two entries for the same movie reference with different stored
snapshots are counted in two separate groups of one, never merged. -/
theorem getPopularMovies_groups_by_snapshot :
    (∀ (db : List WatchlistRow) (limit : Nat),
      (Watchlist.getPopularMovies db limit).length ≤ limit ∧
      (Watchlist.getPopularMovies db limit).Pairwise
        (fun a b => b.2 ≤ a.2) ∧
      ∀ g ∈ Watchlist.getPopularMovies db limit,
        g.2 = db.countP (fun w => decide (wTriple w = g.1))) ∧
    Watchlist.getPopularMovies twoSnapshotDb 10
      = [(("tt1160419", .omdb, "snapA"), 1),
         (("tt1160419", .omdb, "snapB"), 1)] := by
  constructor
  · intro db limit
    refine ⟨?_, ?_, ?_⟩
    · unfold Watchlist.getPopularMovies
      exact List.length_take_le _ _
    · unfold Watchlist.getPopularMovies
      exact List.Pairwise.sublist (List.take_sublist _ _)
        (pairwise_sortByCountDesc _)
    · intro g hg
      unfold Watchlist.getPopularMovies at hg
      have hg2 := mem_sortByCountDesc g _
        (List.mem_of_mem_take hg)
      obtain ⟨t, -, ht⟩ := List.mem_map.mp hg2
      rw [← ht]
  · decide

/-! ## Aggregator: combined search (`GET /api/movies/search`,
`src/routes/movies.js` lines 44-100, and `Movie.transformToOMDBFormat`,
`src/models/Movie.js` lines 145-164) -/

/-- The canonical OMDB-shaped result entry that both catalogs are
normalized into. -/
structure OMDBMovie where
  imdbID : String
  Title : String
  Year : String
  Runtime : String
  Director : String
  Actors : String
  Genre : String
  Plot : String
  Poster : String
  imdbRating : String
  Language : String
  Country : String
  Awards : String
  BoxOffice : String
  Response : String
  Source : String
deriving DecidableEq, Repr

/-- `Movie.transformToOMDBFormat(movie)`: the fixed field mapping from a
local catalog row to the OMDB shape.  `movie.year?.toString() || ''`
becomes rendering the optional integer; `cast_members`/`genre` arrays are
joined with `", "`; missing text fields default to `''`; `pg` already
returns `imdb_rating` as a string. -/
def Movie.transformToOMDBFormat (movie : MovieRow) : OMDBMovie :=
  { imdbID := "custom_" ++ toString movie.id
    Title := movie.title
    Year := (movie.year.map fun y => toString y).getD ""
    Runtime := movie.runtime.getD ""
    Director := movie.director.getD ""
    Actors := String.intercalate ", " movie.cast_members
    Genre := String.intercalate ", " movie.genre
    Plot := movie.plot.getD ""
    Poster := movie.poster.getD ""
    imdbRating := movie.imdb_rating.getD ""
    Language := movie.language.getD ""
    Country := movie.country.getD ""
    Awards := movie.awards.getD ""
    BoxOffice := movie.box_office.getD ""
    Response := "True"
    Source := "custom" }

/-- The duplicate test of the route's deduplication filter:
`m.Title.toLowerCase() === movie.Title.toLowerCase() && m.Year === movie.Year`
(`String.toLower` standing in for JS `toLowerCase`). -/
def sameTitleYear (m movie : OMDBMovie) : Bool :=
  m.Title.toLower == movie.Title.toLower && m.Year == movie.Year

/-- JS `Array.prototype.findIndex`: index of the first match, `-1` when
none matches. -/
def jsFindIndex {α : Type} (p : α → Bool) (l : List α) : Int :=
  match l.findIdx? p with
  | some i => (i : Int)
  | none => -1

/-- JS `Array.prototype.filter` with the `(element, index)` callback
shape, element indices counted from `i`. -/
def jsFilterWithIndexAux {α : Type} (f : α → Nat → Bool) :
    Nat → List α → List α
  | _, [] => []
  | i, x :: xs =>
    if f x i then x :: jsFilterWithIndexAux f (i + 1) xs
    else jsFilterWithIndexAux f (i + 1) xs

/-- The route's deduplication:
`combinedMovies.filter((movie, index, self) => index === self.findIndex(m =>
sameTitleYear(m, movie)))`. -/
def uniqueByTitleYear (self : List OMDBMovie) : List OMDBMovie :=
  jsFilterWithIndexAux
    (fun movie index =>
      jsFindIndex (fun m => sameTitleYear m movie) self == (index : Int))
    0 self

/-- The deduplication key: case-folded title and exact year string. -/
def titleYearKey (m : OMDBMovie) : String × String :=
  (m.Title.toLower, m.Year)

/-- What `OMDBService.searchMovies` hands the route: a (possibly empty)
page of results and the provider's total-count estimate as a string. -/
structure OMDBSearchResult where
  Search : List OMDBMovie
  totalResults : String
deriving Repr

/-- The JSON body of a combined-search response. -/
structure CombinedSearchResponse where
  Search : List OMDBMovie
  totalResults : String
  Response : String
  page : Nat
deriving Repr

/-- Value of a digit run, most significant first. -/
def digitsVal (ds : List Char) : Nat :=
  ds.foldl (fun a c => a * 10 + (c.toNat - 48)) 0

/-- JS `parseInt(s)` (radix 10): skip whitespace, optional sign, value of
the leading digit run; `none` is `NaN`. -/
def jsParseInt (s : String) : Option Int :=
  match s.data.dropWhile (fun c => c.isWhitespace) with
  | '-' :: rest =>
    let ds := rest.takeWhile (fun c => c.isDigit)
    if ds.isEmpty then none else some (-(digitsVal ds : Int))
  | '+' :: rest =>
    let ds := rest.takeWhile (fun c => c.isDigit)
    if ds.isEmpty then none else some (digitsVal ds : Int)
  | rest =>
    let ds := rest.takeWhile (fun c => c.isDigit)
    if ds.isEmpty then none else some (digitsVal ds : Int)

/-- `GET /api/movies/search` given both sources' results: transform the
local rows to the OMDB shape, append them after the external results,
deduplicate by title (case-insensitive) and year string keeping first
occurrences, and report
`totalResults = (parseInt(omdbResults.totalResults) + customResults.length).toString()`
— computed from the pre-deduplication inputs. -/
def combinedSearch (omdbResults : OMDBSearchResult)
    (customResults : List MovieRow) (pageNum : Nat) :
    CombinedSearchResponse :=
  let transformedCustomMovies := customResults.map Movie.transformToOMDBFormat
  let combinedMovies := omdbResults.Search ++ transformedCustomMovies
  let uniqueMovies := uniqueByTitleYear combinedMovies
  { Search := uniqueMovies
    totalResults :=
      match jsParseInt omdbResults.totalResults with
      | some t => toString (t + (customResults.length : Int))
      | none => "NaN"
    Response := if 0 < uniqueMovies.length then "True" else "False"
    page := pageNum }

/-- `dedupFirstAux` depends on the seen accumulator only through key
membership. -/
theorem dedupFirstAux_seen_congr {α κ : Type} [DecidableEq κ] (k : α → κ) :
    ∀ (l : List α) (s1 s2 : List κ), (∀ c, c ∈ s1 ↔ c ∈ s2) →
      dedupFirstAux k s1 l = dedupFirstAux k s2 l := by
  intro l
  induction l with
  | nil => intro s1 s2 _; rfl
  | cons x xs ih =>
    intro s1 s2 h
    simp only [dedupFirstAux]
    by_cases hx : k x ∈ s1
    · rw [if_pos hx, if_pos ((h _).mp hx)]
      exact ih s1 s2 h
    · rw [if_neg hx, if_neg (fun hc => hx ((h _).mpr hc))]
      congr 1
      apply ih
      intro c
      rw [List.mem_append, List.mem_append]
      simp only [List.mem_singleton]
      constructor
      · rintro (hc | hc)
        · exact Or.inl ((h c).mp hc)
        · exact Or.inr hc
      · rintro (hc | hc)
        · exact Or.inl ((h c).mpr hc)
        · exact Or.inr hc

theorem jsFilterWithIndexAux_cons_pos {α : Type} (f : α → Nat → Bool)
    (i : Nat) (x : α) (xs : List α) (h : f x i = true) :
    jsFilterWithIndexAux f i (x :: xs)
      = x :: jsFilterWithIndexAux f (i + 1) xs := by
  simp [jsFilterWithIndexAux, h]

theorem jsFilterWithIndexAux_cons_neg {α : Type} (f : α → Nat → Bool)
    (i : Nat) (x : α) (xs : List α) (h : f x i = false) :
    jsFilterWithIndexAux f i (x :: xs)
      = jsFilterWithIndexAux f (i + 1) xs := by
  simp [jsFilterWithIndexAux, h]

theorem dedupFirstAux_cons_mem {α κ : Type} [DecidableEq κ] (k : α → κ)
    (seen : List κ) (x : α) (xs : List α) (h : k x ∈ seen) :
    dedupFirstAux k seen (x :: xs) = dedupFirstAux k seen xs := by
  simp [dedupFirstAux, h]

theorem dedupFirstAux_cons_not_mem {α κ : Type} [DecidableEq κ] (k : α → κ)
    (seen : List κ) (x : α) (xs : List α) (h : k x ∉ seen) :
    dedupFirstAux k seen (x :: xs)
      = x :: dedupFirstAux k (seen ++ [k x]) xs := by
  simp [dedupFirstAux, h]

/-- The JS first-index-wins filter, started behind an already-processed
run `pre` of the full array, keeps exactly the elements whose key did not
occur earlier: it agrees with first-occurrence deduplication seeded with
`pre`'s keys. -/
theorem jsDedup_eq_dedupFirstAux {α κ : Type} [DecidableEq κ] (k : α → κ) :
    ∀ (s pre : List α),
      jsFilterWithIndexAux
        (fun x i =>
          jsFindIndex (fun m => decide (k m = k x)) (pre ++ s) == (i : Int))
        pre.length s
      = dedupFirstAux k (pre.map k) s := by
  intro s
  induction s with
  | nil => intro pre; rfl
  | cons x xs ih =>
    intro pre
    have hassoc : pre ++ x :: xs = (pre ++ [x]) ++ xs := by simp
    have hlen : pre.length + 1 = (pre ++ [x]).length := by simp
    by_cases hx : k x ∈ pre.map k
    · obtain ⟨m, hm, hkm⟩ := List.mem_map.mp hx
      have hsome : (pre.findIdx? fun m => decide (k m = k x)).isSome := by
        rw [List.findIdx?_isSome, List.any_eq_true]
        exact ⟨m, hm, decide_eq_true hkm⟩
      obtain ⟨j, hj⟩ := Option.isSome_iff_exists.mp hsome
      obtain ⟨hjlt, -⟩ := List.findIdx?_eq_some_iff_getElem.mp hj
      have hfull : ((pre ++ x :: xs).findIdx? fun m => decide (k m = k x))
          = some j := by
        rw [List.findIdx?_append, hj]
        rfl
      have hval : jsFindIndex (fun m => decide (k m = k x)) (pre ++ x :: xs)
          = (j : Int) := by
        unfold jsFindIndex
        rw [hfull]
      have hcond :
          (jsFindIndex (fun m => decide (k m = k x)) (pre ++ x :: xs)
            == ((pre.length : Nat) : Int)) = false := by
        rw [hval, beq_eq_false_iff_ne]
        exact_mod_cast Nat.ne_of_lt hjlt
      rw [jsFilterWithIndexAux_cons_neg _ _ _ _ hcond,
        dedupFirstAux_cons_mem k _ _ _ hx]
      have hstep :
          jsFilterWithIndexAux
            (fun x' i =>
              jsFindIndex (fun m => decide (k m = k x')) (pre ++ x :: xs)
                == (i : Int))
            (pre.length + 1) xs
          = dedupFirstAux k ((pre ++ [x]).map k) xs := by
        simp only [hassoc, hlen]
        exact ih (pre ++ [x])
      rw [hstep]
      apply dedupFirstAux_seen_congr
      intro c
      rw [List.map_append, List.mem_append]
      simp only [List.map_cons, List.map_nil, List.mem_singleton]
      constructor
      · rintro (hc | rfl)
        · exact hc
        · exact hx
      · exact Or.inl
    · have hnone : (pre.findIdx? fun m => decide (k m = k x)) = none := by
        rw [List.findIdx?_eq_none_iff]
        intro m hm
        apply decide_eq_false
        intro hkm
        exact hx (List.mem_map.mpr ⟨m, hm, hkm⟩)
      have hfull : ((pre ++ x :: xs).findIdx? fun m => decide (k m = k x))
          = some pre.length := by
        rw [List.findIdx?_append, hnone]
        have hhead : ((x :: xs).findIdx? fun m => decide (k m = k x))
            = some 0 := by
          rw [List.findIdx?_cons, if_pos (decide_eq_true rfl)]
        rw [hhead]
        simp
      have hval : jsFindIndex (fun m => decide (k m = k x)) (pre ++ x :: xs)
          = (pre.length : Int) := by
        unfold jsFindIndex
        rw [hfull]
      have hcond :
          (jsFindIndex (fun m => decide (k m = k x)) (pre ++ x :: xs)
            == ((pre.length : Nat) : Int)) = true := by
        rw [hval]
        simp
      rw [jsFilterWithIndexAux_cons_pos _ _ _ _ hcond,
        dedupFirstAux_cons_not_mem k _ _ _ hx]
      congr 1
      have hstep :
          jsFilterWithIndexAux
            (fun x' i =>
              jsFindIndex (fun m => decide (k m = k x')) (pre ++ x :: xs)
                == (i : Int))
            (pre.length + 1) xs
          = dedupFirstAux k ((pre ++ [x]).map k) xs := by
        simp only [hassoc, hlen]
        exact ih (pre ++ [x])
      rw [hstep, List.map_append]
      rfl

/-- The route's duplicate test is equality of the (case-folded title,
year string) key. -/
theorem sameTitleYear_eq_key (m x : OMDBMovie) :
    sameTitleYear m x = decide (titleYearKey m = titleYearKey x) := by
  unfold sameTitleYear titleYearKey
  by_cases h1 : m.Title.toLower = x.Title.toLower <;>
    by_cases h2 : m.Year = x.Year <;>
      simp [h1, h2, Prod.ext_iff]

/-- The route's findIndex-based filter is first-occurrence deduplication
by the (case-folded title, year string) key. -/
theorem uniqueByTitleYear_eq_dedup (l : List OMDBMovie) :
    uniqueByTitleYear l = dedupByFirstOcc titleYearKey l := by
  unfold uniqueByTitleYear dedupByFirstOcc
  have hfun :
      (fun (movie : OMDBMovie) (index : Nat) =>
        jsFindIndex (fun m => sameTitleYear m movie) l == (index : Int))
      = fun (movie : OMDBMovie) (index : Nat) =>
        jsFindIndex (fun m => decide (titleYearKey m = titleYearKey movie)) l
          == (index : Int) := by
    funext movie index
    have harg : (fun m => sameTitleYear m movie)
        = fun m => decide (titleYearKey m = titleYearKey movie) := by
      funext m
      exact sameTitleYear_eq_key m movie
    rw [harg]
  rw [hfun]
  have h := jsDedup_eq_dedupFirstAux titleYearKey l []
  simp only [List.nil_append, List.length_nil, List.map_nil] at h
  exact h

/-- The external Dune entry of the merge instance. -/
def duneExternal : OMDBMovie :=
  { imdbID := "tt1160419", Title := "Dune", Year := "2021",
    Runtime := "155 min", Director := "Denis Villeneuve",
    Actors := "Timothee Chalamet", Genre := "Sci-Fi",
    Plot := "Paul Atreides", Poster := "https://img/dune.jpg",
    imdbRating := "8.0", Language := "English", Country := "USA",
    Awards := "6 Oscars", BoxOffice := "$108M",
    Response := "True", Source := "omdb" }

/-- The external search page holding only the Dune entry. -/
def duneSearchPage : OMDBSearchResult :=
  { Search := [duneExternal], totalResults := "1" }

/-- The local catalog row for the same movie (same title, year 2021). -/
def duneRow : MovieRow :=
  { id := 5, title := "Dune", year := some 2021, runtime := some "155 min",
    director := some "Denis Villeneuve", cast_members := ["Timothee Chalamet"],
    genre := ["Sci-Fi"], plot := some "Paul Atreides",
    poster := some "https://img/dune-local.jpg", imdb_rating := some "8.0",
    language := some "English", country := some "USA",
    awards := none, box_office := none }

/-- The two Dune entries carry the same deduplication key. -/
theorem duneKeys_eq :
    titleYearKey (Movie.transformToOMDBFormat duneRow)
      = titleYearKey duneExternal := rfl

/-- Merging the one-entry external page with the one local Dune row keeps
only the external entry. -/
theorem duneMergeResult :
    uniqueByTitleYear
        (duneSearchPage.Search
          ++ List.map Movie.transformToOMDBFormat [duneRow])
      = [duneExternal] := by
  show uniqueByTitleYear
      (duneExternal :: [Movie.transformToOMDBFormat duneRow]) = [duneExternal]
  rw [uniqueByTitleYear_eq_dedup]
  unfold dedupByFirstOcc
  rw [dedupFirstAux_cons_not_mem _ _ _ _ (List.not_mem_nil _),
    dedupFirstAux_cons_mem _ _ _ _
      (by rw [duneKeys_eq]; exact List.mem_singleton.mpr rfl)]
  rfl

/-- C3. The combined search concatenates the external results with the
reformatted local results (locals appended after externals) and
deduplicates keeping only the first occurrence of each (case-insensitive
title, exact year string) key; in particular merging the external
`{Title: "Dune", Year: "2021"}` with the local `{title: "Dune",
year: 2021}` yields exactly the one external entry. -/
theorem combinedSearch_dedup_first_occurrence :
    (∀ (o : OMDBSearchResult) (c : List MovieRow) (p : Nat),
      (combinedSearch o c p).Search
        = dedupByFirstOcc titleYearKey
            (o.Search ++ c.map Movie.transformToOMDBFormat)) ∧
    (combinedSearch duneSearchPage [duneRow] 1).Search = [duneExternal] := by
  constructor
  · intro o c p
    unfold combinedSearch
    exact uniqueByTitleYear_eq_dedup _
  · exact duneMergeResult

/-- C4. The reported total-result count of a combined search is the
external provider's total-count estimate plus the number of local
results, taken before deduplication; on the Dune merge instance it is
`"2"` while the returned deduplicated list has length 1. -/
theorem combinedSearch_totalResults_pre_dedup :
    (∀ (o : OMDBSearchResult) (c : List MovieRow) (p : Nat) (t : Int),
      jsParseInt o.totalResults = some t →
      (combinedSearch o c p).totalResults
        = toString (t + (c.length : Int))) ∧
    ((combinedSearch duneSearchPage [duneRow] 1).totalResults = "2" ∧
     (combinedSearch duneSearchPage [duneRow] 1).Search.length = 1) := by
  refine ⟨?_, by decide, ?_⟩
  · intro o c p t ht
    unfold combinedSearch
    simp only [ht]
  · show (uniqueByTitleYear
      (duneSearchPage.Search
        ++ List.map Movie.transformToOMDBFormat [duneRow])).length = 1
    rw [duneMergeResult]
    rfl
